import Mathlib

/-!
Verification of the batch-executor core of the repository: a shallow embedding of
`os/src/batch.rs` and `os/src/syscall/process.rs`, with theorems checking the
specification's claims about the task loader, the application table, the
privilege-transfer context, and the process syscalls.

Machine integers (`usize`) are modelled as `Nat`; byte memory as `Nat → Nat`
(address to byte value).  Code from sibling crates that is referenced but not
present in the sources (`crate::trap`, `crate::board`, `crate::task`,
`crate::timer`, `crate::config`) is modelled from the specification where a
claim depends on it; each such definition carries a doc comment saying so.
-/

/-- `USER_STACK_SIZE` from `batch.rs`: size in bytes of the user stack. -/
def USER_STACK_SIZE : Nat := 4096 * 2

/-- `KERNEL_STACK_SIZE` from `batch.rs`: size in bytes of the kernel stack. -/
def KERNEL_STACK_SIZE : Nat := 4096 * 2

/-- `MAX_APP_NUM` from `batch.rs`: fixed maximum number of applications. -/
def MAX_APP_NUM : Nat := 16

/-- `APP_BASE_ADDRESS` from `batch.rs`: base address of the execution window. -/
def APP_BASE_ADDRESS : Nat := 0x80400000

/-- `APP_SIZE_LIMIT` from `batch.rs`: capacity in bytes of the execution window. -/
def APP_SIZE_LIMIT : Nat := 0x20000

/-- Byte-addressed memory: each address holds a byte value. -/
def Mem : Type := Nat → Nat

/-- `slice.fill(0)` on the raw slice `[base, base + n)`:
embeds `core::slice::from_raw_parts_mut(base as *mut u8, n).fill(0)`. -/
def fillZero (m : Mem) (base n : Nat) : Mem :=
  fun a => if base ≤ a ∧ a < base + n then 0 else m a

/-- `copy_from_slice`: embeds copying `n` bytes from the source range starting
at `src` into the destination range starting at `dst`, all reads taken from the
pre-copy memory (the raw slices in the source must not alias for the Rust call
to be defined, so simultaneous-read semantics is faithful). -/
def copyFrom (m : Mem) (src dst n : Nat) : Mem :=
  fun a => if dst ≤ a ∧ a < dst + n then m (src + (a - dst)) else m a

/-- `AppManager` from `batch.rs`: application count, index of the current
application, and the cached start-address table.  The Rust field is a fixed
array `[usize; MAX_APP_NUM + 1]`; it is modelled as a total function, read only
at indices `≤ num_app` (initialization zero-fills the rest, see
`initAppManager`). -/
structure AppManager where
  num_app : Nat
  current_app : Nat
  app_start : Nat → Nat

/-- `AppManager::get_current_app`. -/
def AppManager.get_current_app (s : AppManager) : Nat :=
  s.current_app

/-- `AppManager::move_to_next_app`: `self.current_app += 1`. -/
def AppManager.move_to_next_app (s : AppManager) : AppManager :=
  { s with current_app := s.current_app + 1 }

/-- Result of `AppManager::load_app`.
`shutdownSuccess` is the diverging `QEMU_EXIT_HANDLE.exit_success()` arm
(modelled from the spec: `crate::board` is not under `src/`; per the spec the
shutdown signal lets no further instruction execute, so nothing after it runs).
`loaded m` is the normal return with the post-load memory.  `fatal` is the
fatal integrity halt the specification describes for load violations; it is
part of the outcome type so that claims about fatal halting are statable. -/
inductive LoadOutcome where
  | shutdownSuccess : LoadOutcome
  | loaded : Mem → LoadOutcome
  | fatal : LoadOutcome

/-- Whether a load outcome is the fatal integrity halt. -/
def LoadOutcome.isFatal : LoadOutcome → Bool
  | .fatal => true
  | _ => false

/-- The memory produced by the non-shutdown path of `AppManager::load_app`:
zero-fill the whole window `[APP_BASE_ADDRESS, APP_BASE_ADDRESS + APP_SIZE_LIMIT)`,
then copy `app_start[i+1] - app_start[i]` bytes from `app_start[i]` to the
window base. -/
def loadedMem (s : AppManager) (m : Mem) (app_id : Nat) : Mem :=
  copyFrom (fillZero m APP_BASE_ADDRESS APP_SIZE_LIMIT)
    (s.app_start app_id) APP_BASE_ADDRESS
    (s.app_start (app_id + 1) - s.app_start app_id)

/-- `AppManager::load_app` from `batch.rs`: if `app_id >= num_app`, print the
completion message and exit-success (diverges); otherwise zero-fill the window
and copy the application's bytes into it.  The `fence.i` instruction-stream
synchronization has no effect on the byte-level memory model. -/
def AppManager.load_app (s : AppManager) (m : Mem) (app_id : Nat) : LoadOutcome :=
  if app_id ≥ s.num_app then
    LoadOutcome.shutdownSuccess
  else
    LoadOutcome.loaded (loadedMem s m app_id)

/-- Embedding of the `lazy_static` initializer of `APP_MANAGER`: reads
`num_app` and then `num_app + 1` start words `raw 0, …, raw num_app` from the
build-time descriptor, copies them into a zero-initialized fixed array of
`MAX_APP_NUM + 1` slots, and starts with `current_app = 0`.  `none` models the
index-out-of-bounds panic of `app_start[..=num_app]` when
`num_app > MAX_APP_NUM`; no other validation appears in the source. -/
def initAppManager (num_app : Nat) (raw : Nat → Nat) : Option AppManager :=
  if num_app ≤ MAX_APP_NUM then
    some { num_app := num_app
           current_app := 0
           app_start := fun i => if i ≤ num_app then raw i else 0 }
  else
    none

/-- Modelled from the spec: `crate::trap::TrapContext` is not under `src/`.
Per the spec's Saved Context data model it holds the general-purpose register
values (`x`, with `x 2` the stack pointer), the privilege/status control bits
(`sstatus`), and the saved program counter (`sepc`). -/
structure TrapContext where
  x : Nat → Nat
  sstatus : Nat
  sepc : Nat

/-- Modelled from the spec: `TrapContext::app_init_context(entry, sp)` is not
under `src/`.  Per the spec's Enter operation it synthesizes a Saved Context
with program counter = `entry`, application stack pointer = `sp`, and status
bits selecting reduced privilege (modelled as `sstatus = 0`); the other
general-purpose registers start at zero. -/
def TrapContext.app_init_context (entry sp : Nat) : TrapContext :=
  { x := fun i => if i = 2 then sp else 0
    sstatus := 0
    sepc := entry }

/-- `UserStack::get_sp`: base address of the stack data array plus
`USER_STACK_SIZE`.  The base address of the statically placed array is a
parameter of the model. -/
def UserStack.get_sp (userStackBase : Nat) : Nat :=
  userStackBase + USER_STACK_SIZE

/-- `KernelStack::get_sp`: base address of the stack data array plus
`KERNEL_STACK_SIZE`. -/
def KernelStack.get_sp (kernelStackBase : Nat) : Nat :=
  kernelStackBase + KERNEL_STACK_SIZE

/-- Modelled from the spec: the size of the Saved Context record
(`core::mem::size_of::<TrapContext>()`; `crate::trap` is not under `src/`).
32 general-purpose registers plus `sstatus` plus `sepc`, 8 bytes each on a
64-bit machine.  No theorem depends on the numeric value, only on it being a
fixed constant. -/
def trapContextSize : Nat := 34 * 8

/-- `KernelStack::push_context`: writes the context at
`get_sp() - size_of::<TrapContext>()` and returns that slot's address together
with the updated context-granular view of kernel-stack memory (a map from slot
address to the context stored there). -/
def KernelStack.push_context (kernelStackBase : Nat) (kmem : Nat → TrapContext)
    (cx : TrapContext) : Nat × (Nat → TrapContext) :=
  let cx_ptr := KernelStack.get_sp kernelStackBase - trapContextSize
  (cx_ptr, fun a => if a = cx_ptr then cx else kmem a)

/-- `run_next_app` from `batch.rs`, up to the `__restore` jump: loads the
current application (diverging into shutdown when the table is exhausted, hence
`none`), advances `current_app`, and synthesizes the initial Saved Context
with entry `APP_BASE_ADDRESS` and stack pointer `USER_STACK.get_sp()` that is
pushed onto the kernel stack and handed to `__restore`. -/
def run_next_app (s : AppManager) (m : Mem) (userStackBase : Nat) :
    Option (AppManager × Mem × TrapContext) :=
  match s.load_app m s.get_current_app with
  | LoadOutcome.loaded m1 =>
      some (s.move_to_next_app, m1,
        TrapContext.app_init_context APP_BASE_ADDRESS (UserStack.get_sp userStackBase))
  | _ => none

/-- `TimeVal` from `syscall/process.rs`. -/
structure TimeVal where
  sec : Nat
  usec : Nat

/-- `sys_get_time` from `syscall/process.rs`: given the microsecond count `us`
returned by `get_time_us()` and the output pointer `ts` into a `TimeVal`-granular
view of application memory, writes `{sec: us / 1_000_000, usec: us % 1_000_000}`
through `ts` and returns 0.  The unused timezone argument of the source is
dropped; `get_time_us` (from `crate::timer`, not under `src/`) is abstracted by
quantifying over its return value. -/
def sys_get_time (tsmem : Nat → TimeVal) (ts : Nat) (us : Nat) :
    (Nat → TimeVal) × Int :=
  (fun a => if a = ts then { sec := us / 1000000, usec := us % 1000000 } else tsmem a, 0)

/-- Modelled from the spec: `suspend_current_and_run_next` (`crate::task`, not
under `src/`) is, per the spec's Voluntary-yield design, a no-op that resumes
the same application, leaving the executor state unchanged. -/
def suspend_current_and_run_next (s : AppManager) : AppManager :=
  s

/-- `sys_yield` from `syscall/process.rs`: suspend-and-run-next, then return 0. -/
def sys_yield (s : AppManager) : AppManager × Int :=
  (suspend_current_and_run_next s, 0)

/-- `TaskStatus` from `crate::task`, as reproduced in the comment block of
`syscall/process.rs`. -/
inductive TaskStatus where
  | UnInit : TaskStatus
  | Ready : TaskStatus
  | Running : TaskStatus
  | Exited : TaskStatus
deriving DecidableEq

/-- `MAX_SYSCALL_NUM` from `crate::config` (not under `src/`); the value does
not affect any claim, only the shape of `TaskInfo`. -/
def MAX_SYSCALL_NUM : Nat := 500

/-- `TaskInfo` from `syscall/process.rs`. -/
structure TaskInfo where
  status : TaskStatus
  syscall_times : Fin MAX_SYSCALL_NUM → Nat
  time : Nat

/-- `sys_task_info` from `syscall/process.rs`: reads the `TaskInfo` record
through the pointer `ti` (a `TaskInfo`-granular view of application memory),
returns -1 when its status is `UnInit` and 0 otherwise, and performs no write. -/
def sys_task_info (timem : Nat → TaskInfo) (ti : Nat) : (Nat → TaskInfo) × Int :=
  match (timem ti).status with
  | TaskStatus.UnInit => (timem, -1)
  | _ => (timem, 0)

/-! Concrete fixtures used by witnesses and counterexamples. -/

/-- Memory holding byte 1 at every address. -/
def mOne : Mem := fun _ => 1

/-- A one-application table: app 0 occupies storage `[0x1000, 0x1002)`. -/
def mgrW : AppManager :=
  ⟨1, 0, fun n => if n = 0 then 0x1000 else if n = 1 then 0x1002 else 0⟩

/-- A one-application table whose app is larger than the window:
storage `[0x1000, 0x21008)`, length `0x20008 > APP_SIZE_LIMIT`. -/
def mgrBig : AppManager :=
  ⟨1, 0, fun n => if n = 0 then 0x1000 else if n = 1 then 0x21008 else 0⟩

/-- A descriptor whose only range is empty: every start word is 5, so
`[raw 0, raw 1) = [5, 5)`. -/
def rawEmptyRange : Nat → Nat := fun _ => 5

/-- The manager produced by initializing from `rawEmptyRange` with count 1. -/
def mgrInit1 : AppManager :=
  ⟨1, 0, fun i => if i ≤ 1 then rawEmptyRange i else 0⟩

/-- The initial Saved Context for a user stack placed at `0x90000000`. -/
def cxW : TrapContext :=
  TrapContext.app_init_context APP_BASE_ADDRESS (UserStack.get_sp 0x90000000)

/-- A `TimeVal`-granular memory holding zeroed records. -/
def tvmem0 : Nat → TimeVal := fun _ => ⟨0, 0⟩

/-- A `TaskInfo`-granular memory holding `UnInit` records. -/
def timemU : Nat → TaskInfo := fun _ => ⟨TaskStatus.UnInit, fun _ => 0, 0⟩

/-! Helper lemmas about the memory operations and the loader. -/

lemma copyFrom_in (m : Mem) (src dst n a : Nat) (h1 : dst ≤ a) (h2 : a < dst + n) :
    copyFrom m src dst n a = m (src + (a - dst)) := by
  simp only [copyFrom]
  rw [if_pos ⟨h1, h2⟩]

lemma copyFrom_out (m : Mem) (src dst n a : Nat) (h : ¬(dst ≤ a ∧ a < dst + n)) :
    copyFrom m src dst n a = m a := by
  simp only [copyFrom]
  rw [if_neg h]

lemma fillZero_in (m : Mem) (base n a : Nat) (h1 : base ≤ a) (h2 : a < base + n) :
    fillZero m base n a = 0 := by
  simp only [fillZero]
  rw [if_pos ⟨h1, h2⟩]

lemma fillZero_out (m : Mem) (base n a : Nat) (h : ¬(base ≤ a ∧ a < base + n)) :
    fillZero m base n a = m a := by
  simp only [fillZero]
  rw [if_neg h]

lemma load_app_run (s : AppManager) (m : Mem) (i : Nat) (hi : i < s.num_app) :
    s.load_app m i = LoadOutcome.loaded (loadedMem s m i) := by
  unfold AppManager.load_app
  rw [if_neg (by omega)]

lemma loadedMem_copy (s : AppManager) (m : Mem) (i j : Nat)
    (hj : j < s.app_start (i + 1) - s.app_start i)
    (hdisj : s.app_start (i + 1) ≤ APP_BASE_ADDRESS ∨
      (APP_BASE_ADDRESS + APP_SIZE_LIMIT ≤ s.app_start i ∧
       APP_BASE_ADDRESS + (s.app_start (i + 1) - s.app_start i) ≤ s.app_start i)) :
    loadedMem s m i (APP_BASE_ADDRESS + j) = m (s.app_start i + j) := by
  unfold loadedMem
  rw [copyFrom_in _ _ _ _ _ (Nat.le_add_right _ _) (by omega)]
  rw [Nat.add_sub_cancel_left]
  exact fillZero_out _ _ _ _ (by omega)

lemma loadedMem_zero (s : AppManager) (m : Mem) (i j : Nat)
    (h1 : s.app_start (i + 1) - s.app_start i ≤ j) (h2 : j < APP_SIZE_LIMIT) :
    loadedMem s m i (APP_BASE_ADDRESS + j) = 0 := by
  unfold loadedMem
  rw [copyFrom_out _ _ _ _ _ (by omega)]
  exact fillZero_in _ _ _ _ (Nat.le_add_right _ _) (by omega)

/-- C1: for every `i < count()`, after `load(i)` the execution window's first
`end[i] - start[i]` bytes equal the corresponding bytes of the storage image
(the range `[start[i], end[i])` read through the application table), and every
remaining byte of the window up to `APP_SIZE_LIMIT` is zero.  The disjointness
hypothesis states that the application's storage range does not overlap the
region written by the load (below the window, or above both the fill and the
copy extent), which the raw-slice aliasing rules of the source require. -/
theorem C1_load_window (s : AppManager) (m : Mem) (i : Nat)
    (hi : i < s.num_app)
    (hdisj : s.app_start (i + 1) ≤ APP_BASE_ADDRESS ∨
      (APP_BASE_ADDRESS + APP_SIZE_LIMIT ≤ s.app_start i ∧
       APP_BASE_ADDRESS + (s.app_start (i + 1) - s.app_start i) ≤ s.app_start i)) :
    s.load_app m i = LoadOutcome.loaded (loadedMem s m i) ∧
    (∀ j, j < s.app_start (i + 1) - s.app_start i →
      loadedMem s m i (APP_BASE_ADDRESS + j) = m (s.app_start i + j)) ∧
    (∀ j, s.app_start (i + 1) - s.app_start i ≤ j → j < APP_SIZE_LIMIT →
      loadedMem s m i (APP_BASE_ADDRESS + j) = 0) :=
  ⟨load_app_run s m i hi,
   fun j hj => loadedMem_copy s m i j hj hdisj,
   fun j h1 h2 => loadedMem_zero s m i j h1 h2⟩

/-- Witness for C1 at the concrete table `mgrW` (one app, storage
`[0x1000, 0x1002)`) and memory `mOne`. -/
theorem C1_witness :
    0 < mgrW.num_app ∧ mgrW.app_start (0 + 1) ≤ APP_BASE_ADDRESS ∧
    (mgrW.load_app mOne 0 = LoadOutcome.loaded (loadedMem mgrW mOne 0) ∧
     (∀ j, j < mgrW.app_start (0 + 1) - mgrW.app_start 0 →
       loadedMem mgrW mOne 0 (APP_BASE_ADDRESS + j) = mOne (mgrW.app_start 0 + j)) ∧
     (∀ j, mgrW.app_start (0 + 1) - mgrW.app_start 0 ≤ j → j < APP_SIZE_LIMIT →
       loadedMem mgrW mOne 0 (APP_BASE_ADDRESS + j) = 0)) :=
  ⟨by decide, by decide, C1_load_window mgrW mOne 0 (by decide) (Or.inl (by decide))⟩

/-- C2 counterexample: `mgrBig`'s app 0 is `0x20008 > APP_SIZE_LIMIT` bytes
long, yet `load_app` does not halt fatally: it returns a loaded memory, and the
byte just past the window's capacity has been overwritten with the storage
byte 1 — bytes are copied beyond the window. -/
theorem C2_counterexample :
    0 < mgrBig.num_app ∧
    APP_SIZE_LIMIT < mgrBig.app_start 1 - mgrBig.app_start 0 ∧
    (mgrBig.load_app mOne 0).isFatal = false ∧
    mgrBig.load_app mOne 0 = LoadOutcome.loaded (loadedMem mgrBig mOne 0) ∧
    loadedMem mgrBig mOne 0 (APP_BASE_ADDRESS + APP_SIZE_LIMIT) = 1 :=
  ⟨by decide, by decide, by decide,
   load_app_run mgrBig mOne 0 (by decide), by decide⟩

/-- C2 (amended): `load_app` performs no size check: for `i < count()` with
`end[i] - start[i] > APP_SIZE_LIMIT` it does not halt fatally; it proceeds and
copies all `end[i] - start[i]` storage bytes to the window base, including the
bytes beyond the window's capacity. -/
theorem C2_no_size_check (s : AppManager) (m : Mem) (i : Nat)
    (hi : i < s.num_app)
    (hbig : APP_SIZE_LIMIT < s.app_start (i + 1) - s.app_start i)
    (hdisj : s.app_start (i + 1) ≤ APP_BASE_ADDRESS ∨
      (APP_BASE_ADDRESS + APP_SIZE_LIMIT ≤ s.app_start i ∧
       APP_BASE_ADDRESS + (s.app_start (i + 1) - s.app_start i) ≤ s.app_start i)) :
    (s.load_app m i).isFatal = false ∧
    s.load_app m i = LoadOutcome.loaded (loadedMem s m i) ∧
    (∀ j, j < s.app_start (i + 1) - s.app_start i →
      loadedMem s m i (APP_BASE_ADDRESS + j) = m (s.app_start i + j)) := by
  have h := load_app_run s m i hi
  exact ⟨by rw [h]; rfl, h, fun j hj => loadedMem_copy s m i j hj hdisj⟩

/-- Witness for C2's amended theorem at the oversized table `mgrBig`. -/
theorem C2_witness :
    0 < mgrBig.num_app ∧
    APP_SIZE_LIMIT < mgrBig.app_start (0 + 1) - mgrBig.app_start 0 ∧
    ((mgrBig.load_app mOne 0).isFatal = false ∧
     mgrBig.load_app mOne 0 = LoadOutcome.loaded (loadedMem mgrBig mOne 0) ∧
     (∀ j, j < mgrBig.app_start (0 + 1) - mgrBig.app_start 0 →
       loadedMem mgrBig mOne 0 (APP_BASE_ADDRESS + j) = mOne (mgrBig.app_start 0 + j))) :=
  ⟨by decide, by decide,
   C2_no_size_check mgrBig mOne 0 (by decide) (by decide) (Or.inl (by decide))⟩

/-- C3 counterexample: a descriptor with count 1 whose only range
`[raw 0, raw 1) = [5, 5)` is empty is accepted by the initializer — it does
not abort, contradicting the claim that empty or out-of-order ranges are a
fatal boot-time integrity violation. -/
theorem C3_counterexample :
    rawEmptyRange 0 = rawEmptyRange 1 ∧
    (initAppManager 1 rawEmptyRange).isSome = true :=
  ⟨rfl, by decide⟩

/-- C3 (amended): initialization aborts (boot-time fatal) exactly when the
application count exceeds `MAX_APP_NUM`; the ranges themselves are not
validated.  On success, `current_app = 0`, the count is cached, and the cached
table equals the descriptor's first `count + 1` words, with the remaining fixed
slots zero. -/
theorem C3_init_integrity (n : Nat) (raw : Nat → Nat) :
    (initAppManager n raw = none ↔ MAX_APP_NUM < n) ∧
    (∀ s, initAppManager n raw = some s →
      s.current_app = 0 ∧ s.num_app = n ∧
      (∀ i, i ≤ n → s.app_start i = raw i) ∧
      (∀ i, n < i → s.app_start i = 0)) := by
  refine ⟨⟨fun hnone => ?_, fun hgt => ?_⟩, fun s hs => ?_⟩
  · by_contra hle
    rw [initAppManager, if_pos (by omega)] at hnone
    exact Option.noConfusion hnone
  · rw [initAppManager, if_neg (by omega)]
  · have h : n ≤ MAX_APP_NUM := by
      by_contra hgt
      rw [initAppManager, if_neg hgt] at hs
      exact Option.noConfusion hs
    rw [initAppManager, if_pos h] at hs
    obtain rfl := Option.some.inj hs
    refine ⟨rfl, rfl, fun i hi => ?_, fun i hi => ?_⟩
    · show (if i ≤ n then raw i else 0) = raw i
      exact if_pos hi
    · show (if i ≤ n then raw i else 0) = 0
      exact if_neg (by omega)

/-- Witness for C3's amended theorem: count 17 aborts; count 1 succeeds with
`current_app = 0` and the descriptor cached. -/
theorem C3_witness :
    initAppManager 17 rawEmptyRange = none ∧
    mgrInit1.current_app = 0 ∧ mgrInit1.num_app = 1 ∧ mgrInit1.app_start 0 = 5 :=
  ⟨(C3_init_integrity 17 rawEmptyRange).1.mpr (by decide),
   ((C3_init_integrity 1 rawEmptyRange).2 mgrInit1 (by rfl)).1,
   ((C3_init_integrity 1 rawEmptyRange).2 mgrInit1 (by rfl)).2.1,
   by decide⟩

/-- C4: for every `i ≥ count()`, `load_app(i)` takes the completion branch and
performs the clean success shutdown; the outcome carries no loaded memory, so
the window is neither zero-filled nor written (exhausting the table triggers
the success-shutdown signal, not another load). -/
theorem C4_exhausted_shutdown (s : AppManager) (m : Mem) (i : Nat)
    (h : s.num_app ≤ i) :
    s.load_app m i = LoadOutcome.shutdownSuccess := by
  unfold AppManager.load_app
  rw [if_pos (by omega)]

/-- Witness for C4: `mgrW` has one app; loading index 1 (reached after the last
application terminates and the lifecycle advances) shuts down successfully. -/
theorem C4_witness :
    mgrW.num_app ≤ 1 ∧ mgrW.load_app mOne 1 = LoadOutcome.shutdownSuccess :=
  ⟨by decide, C4_exhausted_shutdown mgrW mOne 1 (by decide)⟩

/-- C5: whenever `run_next_app` reaches the Enter path (it loaded an
application rather than shutting down), the synthesized initial Saved Context
has program counter `APP_BASE_ADDRESS` and stack pointer
`USER_STACK.get_sp() = userStackBase + USER_STACK_SIZE` — for every manager
state, hence independent of which application index is being entered. -/
theorem C5_initial_context (s : AppManager) (m : Mem) (userStackBase : Nat)
    (s' : AppManager) (m' : Mem) (cx : TrapContext)
    (h : run_next_app s m userStackBase = some (s', m', cx)) :
    cx.sepc = APP_BASE_ADDRESS ∧
    cx.x 2 = UserStack.get_sp userStackBase ∧
    cx.x 2 = userStackBase + USER_STACK_SIZE := by
  unfold run_next_app at h
  cases hl : s.load_app m s.get_current_app with
  | shutdownSuccess => rw [hl] at h; exact Option.noConfusion h
  | fatal => rw [hl] at h; exact Option.noConfusion h
  | loaded m1 =>
    rw [hl] at h
    obtain ⟨-, -, rfl⟩ := Prod.mk.injEq .. ▸ Option.some.inj h
    refine ⟨rfl, ?_, ?_⟩ <;>
      simp [TrapContext.app_init_context, UserStack.get_sp]

/-- Witness for C5 at the concrete table `mgrW` with the user stack at
`0x90000000`. -/
theorem C5_witness :
    run_next_app mgrW mOne 0x90000000
      = some (mgrW.move_to_next_app, loadedMem mgrW mOne 0, cxW) ∧
    (cxW.sepc = APP_BASE_ADDRESS ∧
     cxW.x 2 = UserStack.get_sp 0x90000000 ∧
     cxW.x 2 = 0x90000000 + USER_STACK_SIZE) :=
  ⟨rfl, C5_initial_context mgrW mOne 0x90000000 _ _ _ rfl⟩

/-- C6: every call of `push_context` writes the Saved Context to the identical
fixed slot `KERNEL_STACK base + KERNEL_STACK_SIZE - size_of::<TrapContext>()`,
the returned address is that slot and its contents equal the pushed context,
and the slot address does not depend on the prior stack contents or the pushed
value — so the kernel stack holds at most one context frame at any time. -/
theorem C6_push_context_fixed_slot (kernelStackBase : Nat)
    (kmem kmem2 : Nat → TrapContext) (cx cx2 : TrapContext) :
    (KernelStack.push_context kernelStackBase kmem cx).1
      = kernelStackBase + KERNEL_STACK_SIZE - trapContextSize ∧
    (KernelStack.push_context kernelStackBase kmem cx).2
      (KernelStack.push_context kernelStackBase kmem cx).1 = cx ∧
    (KernelStack.push_context kernelStackBase kmem2 cx2).1
      = (KernelStack.push_context kernelStackBase kmem cx).1 := by
  refine ⟨rfl, ?_, rfl⟩
  simp [KernelStack.push_context]

/-- C7: `move_to_next_app` increments `current_app` by exactly 1 and changes
no other executor state (`num_app` and the cached `app_start` table are
unchanged); in particular `current_app` never decreases. -/
theorem C7_advance (s : AppManager) :
    (s.move_to_next_app).current_app = s.current_app + 1 ∧
    (s.move_to_next_app).num_app = s.num_app ∧
    (s.move_to_next_app).app_start = s.app_start ∧
    s.current_app ≤ (s.move_to_next_app).current_app :=
  ⟨rfl, rfl, rfl, Nat.le_succ _⟩

/-- C8: for every microsecond count `us` returned by the clock, `sys_get_time`
writes `{sec: us / 1_000_000, usec: us % 1_000_000}` through the output
pointer (leaving every other location unchanged) and returns 0; the written
`usec` is below 1_000_000, `sec * 1_000_000 + usec` reconstructs `us`, and the
written pair is lexicographically non-decreasing whenever the clock is. -/
theorem C8_get_time (tsmem : Nat → TimeVal) (ts : Nat) (us1 us2 : Nat)
    (h : us1 ≤ us2) :
    ((sys_get_time tsmem ts us1).1 ts).usec < 1000000 ∧
    ((sys_get_time tsmem ts us1).1 ts).sec * 1000000
      + ((sys_get_time tsmem ts us1).1 ts).usec = us1 ∧
    (sys_get_time tsmem ts us1).2 = 0 ∧
    (∀ a, a ≠ ts → (sys_get_time tsmem ts us1).1 a = tsmem a) ∧
    (((sys_get_time tsmem ts us1).1 ts).sec < ((sys_get_time tsmem ts us2).1 ts).sec ∨
     (((sys_get_time tsmem ts us1).1 ts).sec = ((sys_get_time tsmem ts us2).1 ts).sec ∧
      ((sys_get_time tsmem ts us1).1 ts).usec ≤ ((sys_get_time tsmem ts us2).1 ts).usec)) := by
  have hread : ∀ us : Nat, (sys_get_time tsmem ts us).1 ts
      = { sec := us / 1000000, usec := us % 1000000 } := by
    intro us
    simp [sys_get_time]
  refine ⟨?_, ?_, rfl, fun a ha => by simp [sys_get_time, ha], ?_⟩
  · rw [hread]
    show us1 % 1000000 < 1000000
    omega
  · rw [hread]
    show us1 / 1000000 * 1000000 + us1 % 1000000 = us1
    omega
  · rw [hread, hread]
    show us1 / 1000000 < us2 / 1000000 ∨
      (us1 / 1000000 = us2 / 1000000 ∧ us1 % 1000000 ≤ us2 % 1000000)
    omega

/-- Witness for C8 at the clock readings 3 and 2000005 microseconds. -/
theorem C8_witness :
    3 ≤ 2000005 ∧
    (((sys_get_time tvmem0 0 3).1 0).usec < 1000000 ∧
     ((sys_get_time tvmem0 0 3).1 0).sec * 1000000
       + ((sys_get_time tvmem0 0 3).1 0).usec = 3 ∧
     (sys_get_time tvmem0 0 3).2 = 0 ∧
     (∀ a, a ≠ 0 → (sys_get_time tvmem0 0 3).1 a = tvmem0 a) ∧
     (((sys_get_time tvmem0 0 3).1 0).sec < ((sys_get_time tvmem0 0 2000005).1 0).sec ∨
      (((sys_get_time tvmem0 0 3).1 0).sec = ((sys_get_time tvmem0 0 2000005).1 0).sec ∧
       ((sys_get_time tvmem0 0 3).1 0).usec ≤ ((sys_get_time tvmem0 0 2000005).1 0).usec))) :=
  ⟨by decide, C8_get_time tvmem0 0 3 2000005 (by decide)⟩

/-- C9: `sys_yield` returns 0 and leaves the executor state — in particular
`current_app` — unchanged: the voluntary yield resumes the same application
and never advances the lifecycle. -/
theorem C9_yield_noop (s : AppManager) :
    (sys_yield s).2 = 0 ∧ (sys_yield s).1 = s ∧
    (sys_yield s).1.current_app = s.current_app :=
  ⟨rfl, rfl, rfl⟩

/-- C10: `sys_task_info` leaves the pointed-to memory unchanged (it never
writes through `ti`), returns -1 when the record read through `ti` has status
`UnInit`, and returns 0 for every other status. -/
theorem C10_task_info (timem : Nat → TaskInfo) (ti : Nat) :
    (sys_task_info timem ti).1 = timem ∧
    ((timem ti).status = TaskStatus.UnInit → (sys_task_info timem ti).2 = -1) ∧
    ((timem ti).status ≠ TaskStatus.UnInit → (sys_task_info timem ti).2 = 0) := by
  unfold sys_task_info
  cases h : (timem ti).status
  all_goals simp [h]

/-- Witness for C10 at a memory of `UnInit` records: the memory is returned
unchanged and the result is -1. -/
theorem C10_witness :
    (sys_task_info timemU 0).1 = timemU ∧ (sys_task_info timemU 0).2 = -1 :=
  ⟨(C10_task_info timemU 0).1, (C10_task_info timemU 0).2.1 rfl⟩
